import Mathlib

/-!
Shallow embedding of the inventory management core
(`inventory_management/models.py`, `inventory_management/inventory.py`,
`inventory_management/storage.py`).

Python `float` prices are modelled as `Rat`, Python `int` quantities as
`Int`.  The in-memory collection `Dict[str, Product]` is modelled as an
insertion-ordered association list with Python-dict update semantics
(assignment replaces the value in place, otherwise appends).  The
nondeterministic pieces of the environment are passed explicitly: the
auto-generated SKU (`uuid`), the current timestamp (`datetime.now`), and
whether the storage write succeeds.
-/

namespace Inventory

/-- Embeds the `Product` dataclass of `models.py`. -/
structure Product where
  name : String
  category : String
  price : Rat
  quantity : Int
  sku : String
  description : String
  reorder_level : Int
  supplier : String
  created_at : String
  updated_at : String
deriving Repr, DecidableEq

/-- The invariants checked by `Product.__post_init__`. -/
def ProductValid (p : Product) : Prop :=
  0 ≤ p.price ∧ 0 ≤ p.quantity ∧ 0 ≤ p.reorder_level ∧
    p.name ≠ "" ∧ p.category ≠ ""

instance (p : Product) : Decidable (ProductValid p) := by
  unfold ProductValid; infer_instance

/-- Embeds constructing a `Product` through `__post_init__`: the checks run
in source order and raising `ValueError` is modelled as `Except.error`
carrying the message. -/
def mkProduct (name category : String) (price : Rat) (quantity : Int)
    (sku description : String) (reorder_level : Int)
    (supplier created_at updated_at : String) : Except String Product :=
  if price < 0 then .error "Price cannot be negative"
  else if quantity < 0 then .error "Quantity cannot be negative"
  else if reorder_level < 0 then .error "Reorder level cannot be negative"
  else if name = "" then .error "Product name cannot be empty"
  else if category = "" then .error "Category cannot be empty"
  else .ok ⟨name, category, price, quantity, sku, description,
            reorder_level, supplier, created_at, updated_at⟩

/-- `Product.is_low_stock` from `models.py`. -/
def Product.is_low_stock (p : Product) : Bool :=
  p.quantity ≤ p.reorder_level

/-- `Product.total_value` from `models.py`. -/
def Product.total_value (p : Product) : Rat :=
  p.price * p.quantity

/-! ### The SKU-keyed collection (Python `dict`) -/

abbrev Collection := List (String × Product)

/-- Python `products[k]`/`products.get(k)`: first (only) binding of `k`. -/
def dictLookup : Collection → String → Option Product
  | [], _ => none
  | kv :: rest, k => if kv.1 = k then some kv.2 else dictLookup rest k

/-- Python `products[k] = v`: replace the value at an existing key in
place, otherwise append, preserving insertion order. -/
def dictInsert : Collection → String → Product → Collection
  | [], k, v => [(k, v)]
  | kv :: rest, k, v =>
      if kv.1 = k then (k, v) :: rest else kv :: dictInsert rest k v

/-- Python `del products[k]`. -/
def dictErase : Collection → String → Collection
  | [], _ => []
  | kv :: rest, k =>
      if kv.1 = k then dictErase rest k else kv :: dictErase rest k

/-! ### The inventory manager -/

/-- In-memory state of an `InventoryManager`. -/
structure ManagerState where
  products : Collection
deriving Repr, DecidableEq

/-- Outcome of a manager operation: the `(success, message)` pair the
Python method returns, the resulting in-memory state, and what happened at
the storage layer — `none` when `_save` was never reached, `some b` when
`self.storage.save` ran and returned `b`.  The Python code discards that
boolean, so `ok`/`msg` are computed without consulting it. -/
structure OpResult where
  ok : Bool
  msg : String
  state : ManagerState
  saved : Option Bool
deriving Repr, DecidableEq

/-- `InventoryManager.add_product`.  `gen` is the SKU produced by the
`uuid` default factory for this call, `now` is `datetime.now().isoformat()`,
`saveOk` is whether the storage write succeeds.  The explicit-`sku`
argument is checked with Python truthiness: `None` and `""` are falsy. -/
def add_product (s : ManagerState) (gen now : String) (saveOk : Bool)
    (name category : String) (price : Rat) (quantity : Int)
    (description : String) (reorder_level : Int) (supplier : String)
    (sku : Option String) : OpResult :=
  match mkProduct name category price quantity gen description
      reorder_level supplier now now with
  | .error e => ⟨false, e, s, none⟩
  | .ok product =>
    let commit := fun (p : Product) =>
      OpResult.mk true
        ("Product " ++ p.name ++ " added with SKU: " ++ p.sku)
        ⟨dictInsert s.products p.sku p⟩ (some saveOk)
    match sku with
    | none => commit product
    | some k =>
      if k = "" then commit product
      else if (dictLookup s.products k).isSome then
        ⟨false, "Product with SKU " ++ k ++ " already exists", s, none⟩
      else commit { product with sku := k }

/-- One step of `update_product`: the per-field validate-then-assign for
`name`.  An error carries the product as already mutated so far, because
the Python code mutates the stored object field by field before detecting
a later violation. -/
def updName (p : Product) : Option String → Except (String × Product) Product
  | none => .ok p
  | some v => if v = "" then .error ("Product name cannot be empty", p)
              else .ok { p with name := v }

def updCategory (p : Product) : Option String → Except (String × Product) Product
  | none => .ok p
  | some v => if v = "" then .error ("Category cannot be empty", p)
              else .ok { p with category := v }

def updPrice (p : Product) : Option Rat → Except (String × Product) Product
  | none => .ok p
  | some v => if v < 0 then .error ("Price cannot be negative", p)
              else .ok { p with price := v }

def updQuantity (p : Product) : Option Int → Except (String × Product) Product
  | none => .ok p
  | some v => if v < 0 then .error ("Quantity cannot be negative", p)
              else .ok { p with quantity := v }

def updDescription (p : Product) : Option String → Except (String × Product) Product
  | none => .ok p
  | some v => .ok { p with description := v }

def updReorder (p : Product) : Option Int → Except (String × Product) Product
  | none => .ok p
  | some v => if v < 0 then .error ("Reorder level cannot be negative", p)
              else .ok { p with reorder_level := v }

def updSupplier (p : Product) : Option String → Except (String × Product) Product
  | none => .ok p
  | some v => .ok { p with supplier := v }

/-- The field-by-field body of `update_product`, in source order. -/
def applyUpdates (p : Product) (name category : Option String)
    (price : Option Rat) (quantity : Option Int)
    (description : Option String) (reorder_level : Option Int)
    (supplier : Option String) : Except (String × Product) Product :=
  updName p name >>= fun p => updCategory p category >>= fun p =>
  updPrice p price >>= fun p => updQuantity p quantity >>= fun p =>
  updDescription p description >>= fun p => updReorder p reorder_level >>= fun p =>
  updSupplier p supplier

/-- `InventoryManager.update_product`.  An early return leaves the fields
mutated so far visible in the stored product (Python mutates the dict
entry in place); only the success path refreshes `updated_at` and reaches
`_save`. -/
def update_product (s : ManagerState) (now : String) (saveOk : Bool)
    (sku : String) (name category : Option String) (price : Option Rat)
    (quantity : Option Int) (description : Option String)
    (reorder_level : Option Int) (supplier : Option String) : OpResult :=
  match dictLookup s.products sku with
  | none => ⟨false, "Product with SKU " ++ sku ++ " not found", s, none⟩
  | some p0 =>
    match applyUpdates p0 name category price quantity description
        reorder_level supplier with
    | .error ep => ⟨false, ep.1, ⟨dictInsert s.products sku ep.2⟩, none⟩
    | .ok p =>
      let p := { p with updated_at := now }
      ⟨true, "Product " ++ sku ++ " updated successfully",
        ⟨dictInsert s.products sku p⟩, some saveOk⟩

/-- `InventoryManager.delete_product`. -/
def delete_product (s : ManagerState) (saveOk : Bool) (sku : String) : OpResult :=
  match dictLookup s.products sku with
  | none => ⟨false, "Product with SKU " ++ sku ++ " not found", s, none⟩
  | some p =>
    ⟨true, "Product " ++ p.name ++ " (SKU: " ++ sku ++ ") deleted",
      ⟨dictErase s.products sku⟩, some saveOk⟩

/-- `InventoryManager.get_product`. -/
def get_product (s : ManagerState) (sku : String) : Option Product :=
  dictLookup s.products sku

/-- `InventoryManager.add_stock`. -/
def add_stock (s : ManagerState) (now : String) (saveOk : Bool)
    (sku : String) (quantity : Int) : OpResult :=
  match dictLookup s.products sku with
  | none => ⟨false, "Product with SKU " ++ sku ++ " not found", s, none⟩
  | some p =>
    if quantity ≤ 0 then ⟨false, "Quantity to add must be positive", s, none⟩
    else
      let p := { p with quantity := p.quantity + quantity, updated_at := now }
      ⟨true, "Added " ++ toString quantity ++ " units to " ++ p.name ++
          ". New quantity: " ++ toString p.quantity,
        ⟨dictInsert s.products sku p⟩, some saveOk⟩

/-- `InventoryManager.remove_stock`. -/
def remove_stock (s : ManagerState) (now : String) (saveOk : Bool)
    (sku : String) (quantity : Int) : OpResult :=
  match dictLookup s.products sku with
  | none => ⟨false, "Product with SKU " ++ sku ++ " not found", s, none⟩
  | some p =>
    if quantity ≤ 0 then
      ⟨false, "Quantity to remove must be positive", s, none⟩
    else if p.quantity < quantity then
      ⟨false, "Insufficient stock. Available: " ++ toString p.quantity ++
          ", Requested: " ++ toString quantity, s, none⟩
    else
      let p := { p with quantity := p.quantity - quantity, updated_at := now }
      ⟨true, "Removed " ++ toString quantity ++ " units from " ++ p.name ++
          ". Remaining: " ++ toString p.quantity,
        ⟨dictInsert s.products sku p⟩, some saveOk⟩

/-- `InventoryManager.get_low_stock_products`. -/
def get_low_stock_products (s : ManagerState) : List Product :=
  (s.products.map Prod.snd).filter (fun p => p.is_low_stock)

/-- `InventoryManager.clear_all`. -/
def clear_all (_s : ManagerState) (saveOk : Bool) : OpResult :=
  ⟨true, "All products have been removed from inventory", ⟨[]⟩, some saveOk⟩

/-! ### Storage (`storage.py`)

The JSON text in the file is modelled by its parse outcome: a `Json` tree
for well-formed content, and the distinguished shapes `missing`, `empty`
and `unparsable` for the cases `os.path.exists` fails, the stripped
content is `""`, and `json.loads` raises `JSONDecodeError`.  Exceptions
that `load` does not catch (`KeyError`, `ValueError`, `TypeError` from
`Product.from_dict`) are modelled as `Except.error`. -/

inductive Json where
  | null
  | bool (b : Bool)
  | num (q : Rat)
  | str (s : String)
  | arr (items : List Json)
  | obj (fields : List (String × Json))
deriving Repr

/-- Lookup in a JSON object (Python `dict.get`). -/
def jGet : List (String × Json) → String → Option Json
  | [], _ => none
  | kv :: rest, k => if kv.1 = k then some kv.2 else jGet rest k

/-- `dict.get(k, dflt)`. -/
def jGetD (d : List (String × Json)) (k : String) (dflt : Json) : Json :=
  match jGet d k with
  | some v => v
  | none => dflt

/-- Using a JSON value as a Python `str`; anything else eventually raises
`TypeError` at a string operation. -/
def asStr : Json → Except String String
  | .str s => .ok s
  | _ => .error "TypeError"

/-- Using a JSON value as a Python number; anything else raises
`TypeError` at the first comparison. -/
def asNum : Json → Except String Rat
  | .num q => .ok q
  | _ => .error "TypeError"

/-- Using a JSON value as a Python `int`. -/
def asInt (j : Json) : Except String Int :=
  match j with
  | .num q => if q.den = 1 then .ok q.num else .error "TypeError"
  | _ => .error "TypeError"

/-- `data[k]`: raises `KeyError` when absent. -/
def jGetReq (d : List (String × Json)) (k : String) : Except String Json :=
  match jGet d k with
  | some v => .ok v
  | none => .error ("KeyError: " ++ k)

/-- `Product.from_dict` from `models.py`, argument evaluation in source
order followed by `__post_init__` validation.  `now` stands for
`datetime.now().isoformat()`, the default for absent timestamps. -/
def from_dict (now : String) (j : Json) : Except String Product :=
  match j with
  | .obj d => do
    let sku ← asStr (jGetD d "sku" (.str ""))
    let name ← jGetReq d "name" >>= asStr
    let category ← jGetReq d "category" >>= asStr
    let price ← jGetReq d "price" >>= asNum
    let quantity ← jGetReq d "quantity" >>= asInt
    let description ← asStr (jGetD d "description" (.str ""))
    let reorder_level ← asInt (jGetD d "reorder_level" (.num 10))
    let supplier ← asStr (jGetD d "supplier" (.str ""))
    let created_at ← asStr (jGetD d "created_at" (.str now))
    let updated_at ← asStr (jGetD d "updated_at" (.str now))
    mkProduct name category price quantity sku description reorder_level
      supplier created_at updated_at
  | _ => .error "TypeError"

/-- `Product.to_dict` from `models.py`. -/
def to_dict (p : Product) : Json :=
  .obj [("sku", .str p.sku), ("name", .str p.name),
        ("category", .str p.category), ("price", .num p.price),
        ("quantity", .num p.quantity), ("description", .str p.description),
        ("reorder_level", .num p.reorder_level),
        ("supplier", .str p.supplier), ("created_at", .str p.created_at),
        ("updated_at", .str p.updated_at)]

/-- Parse outcome of the storage file's content. -/
inductive FileState where
  | missing
  | empty
  | unparsable
  | parsed (j : Json)

/-- `InventoryStorage.save` on the success path: the file afterwards holds
`{"products": [p.to_dict() for p in products.values()]}`. -/
def saveFile (products : Collection) : FileState :=
  .parsed (.obj [("products", .arr (products.map (fun kv => to_dict kv.2)))])

/-- The loop body of `InventoryStorage.load`: build the SKU-keyed dict,
propagating any exception `Product.from_dict` raises. -/
def loadItems (now : String) (acc : Collection) :
    List Json → Except String Collection
  | [] => .ok acc
  | j :: rest =>
    match from_dict now j with
    | .error e => .error e
    | .ok p => loadItems now (dictInsert acc p.sku p) rest

/-- `InventoryStorage.load`.  The `except` clause catches only I/O errors
and `JSONDecodeError`, so those cases yield `{}`; exceptions raised while
converting entries propagate (`Except.error`).  A parsed document that is
not an object fails at `data.get` (`AttributeError`), and a `"products"`
value that is not a list fails in the loop; both are modelled as errors. -/
def loadFile (now : String) (f : FileState) : Except String Collection :=
  match f with
  | .missing => .ok []
  | .empty => .ok []
  | .unparsable => .ok []
  | .parsed (.obj d) =>
    match jGetD d "products" (.arr []) with
    | .arr items => loadItems now [] items
    | _ => .error "TypeError"
  | .parsed _ => .error "AttributeError"

/-! ### A single step relation over the mutating manager operations -/

/-- One mutating call to the manager, with its environment inputs. -/
inductive ManagerOp where
  | add (gen now : String) (saveOk : Bool) (name category : String)
      (price : Rat) (quantity : Int) (description : String)
      (reorder_level : Int) (supplier : String) (sku : Option String)
  | update (now : String) (saveOk : Bool) (sku : String)
      (name category : Option String) (price : Option Rat)
      (quantity : Option Int) (description : Option String)
      (reorder_level : Option Int) (supplier : Option String)
  | delete (saveOk : Bool) (sku : String)
  | addStock (now : String) (saveOk : Bool) (sku : String) (quantity : Int)
  | removeStock (now : String) (saveOk : Bool) (sku : String) (quantity : Int)
  | clearAll (saveOk : Bool)

/-- Dispatch a mutating operation. -/
def runOp (s : ManagerState) : ManagerOp → OpResult
  | .add gen now so name category price quantity description rl supplier sku =>
      add_product s gen now so name category price quantity description
        rl supplier sku
  | .update now so sku name category price quantity description rl supplier =>
      update_product s now so sku name category price quantity description
        rl supplier
  | .delete so sku => delete_product s so sku
  | .addStock now so sku q => add_stock s now so sku q
  | .removeStock now so sku q => remove_stock s now so sku q
  | .clearAll so => clear_all s so

/-- The collection invariant: every entry is keyed by its own product's
SKU, every stored product satisfies the creation invariants, and keys are
unique. -/
def StateInv (s : ManagerState) : Prop :=
  (∀ kv ∈ s.products, kv.1 = kv.2.sku ∧ ProductValid kv.2) ∧
    (s.products.map Prod.fst).Nodup

instance (s : ManagerState) : Decidable (StateInv s) := by
  unfold StateInv; infer_instance

/-- The SKU actually assigned by `add_product`: the explicit argument when
it is truthy, the generated one otherwise. -/
def effectiveSku (gen : String) : Option String → String
  | none => gen
  | some k => if k = "" then gen else k

/-- The product the success path of `applyUpdates` or its early exit left
behind: Python mutates the stored object in place, so both carry one. -/
def chainOut : Except (String × Product) Product → Product
  | .ok p => p
  | .error ep => ep.2

/-- What one `update_product` field step never touches: identity,
timestamps, and the creation invariants. -/
def Pres (p q : Product) : Prop :=
  q.sku = p.sku ∧ q.updated_at = p.updated_at ∧ q.created_at = p.created_at ∧
    (ProductValid p → ProductValid q)

/-- A sample product used to instantiate the theorems. -/
def sampleProduct : Product :=
  ⟨"Alpha", "Tools", 5, 7, "SKU1", "", 10, "", "t0", "t0"⟩

/-- A sample one-product manager state. -/
def sampleState : ManagerState := ⟨[("SKU1", sampleProduct)]⟩

/-! ## Helper lemmas -/

theorem exbind_ok (q : Product) (f : Product → Except (String × Product) Product) :
    (Except.ok q >>= f) = f q := rfl

theorem exbind_error (e : String × Product)
    (f : Product → Except (String × Product) Product) :
    (Except.error e >>= f) = Except.error e := rfl

theorem dictLookup_dictInsert_self (m : Collection) (k : String) (v : Product) :
    dictLookup (dictInsert m k v) k = some v := by
  induction m with
  | nil => simp [dictInsert, dictLookup]
  | cons kv rest ih =>
    by_cases h : kv.1 = k
    · simp [dictInsert, h, dictLookup]
    · simp [dictInsert, h, dictLookup, ih]

theorem mem_dictInsert (m : Collection) (k : String) (v : Product)
    (kv : String × Product) (h : kv ∈ dictInsert m k v) :
    kv = (k, v) ∨ kv ∈ m := by
  induction m with
  | nil => simpa [dictInsert] using h
  | cons hd rest ih =>
    by_cases hh : hd.1 = k
    · simp only [dictInsert, if_pos hh, List.mem_cons] at h
      rcases h with h | h
      · exact Or.inl h
      · exact Or.inr (List.mem_cons_of_mem _ h)
    · simp only [dictInsert, if_neg hh, List.mem_cons] at h
      rcases h with h | h
      · exact Or.inr (h ▸ List.mem_cons_self _ _)
      · rcases ih h with h2 | h2
        · exact Or.inl h2
        · exact Or.inr (List.mem_cons_of_mem _ h2)

theorem mem_keys_dictInsert (m : Collection) (k a : String) (v : Product)
    (h : a ∈ (dictInsert m k v).map Prod.fst) :
    a = k ∨ a ∈ m.map Prod.fst := by
  simp only [List.mem_map] at h
  obtain ⟨kv, hkv, hfst⟩ := h
  rcases mem_dictInsert m k v kv hkv with h1 | h1
  · exact Or.inl (by rw [← hfst, h1])
  · exact Or.inr (by rw [← hfst]; exact List.mem_map_of_mem _ h1)

theorem nodup_keys_dictInsert (m : Collection) (k : String) (v : Product)
    (h : (m.map Prod.fst).Nodup) :
    ((dictInsert m k v).map Prod.fst).Nodup := by
  induction m with
  | nil => simp [dictInsert]
  | cons hd rest ih =>
    simp only [List.map_cons, List.nodup_cons] at h
    by_cases hh : hd.1 = k
    · simp only [dictInsert, if_pos hh, List.map_cons, List.nodup_cons]
      exact ⟨hh ▸ h.1, h.2⟩
    · simp only [dictInsert, if_neg hh, List.map_cons, List.nodup_cons]
      refine ⟨fun hmem => ?_, ih h.2⟩
      rcases mem_keys_dictInsert rest k hd.1 v hmem with h1 | h1
      · exact hh h1
      · exact h.1 h1

theorem dictInsert_of_not_mem (m : Collection) (k : String) (v : Product)
    (h : k ∉ m.map Prod.fst) : dictInsert m k v = m ++ [(k, v)] := by
  induction m with
  | nil => rfl
  | cons hd rest ih =>
    simp only [List.map_cons, List.mem_cons, not_or] at h
    rw [dictInsert, if_neg (fun he => h.1 he.symm), ih h.2]
    rfl

theorem keys_dictInsert_of_mem (m : Collection) (k : String) (v : Product)
    (h : k ∈ m.map Prod.fst) :
    (dictInsert m k v).map Prod.fst = m.map Prod.fst := by
  induction m with
  | nil => simp at h
  | cons hd rest ih =>
    by_cases hh : hd.1 = k
    · simp [dictInsert, hh]
    · have hr : k ∈ rest.map Prod.fst := by
        simp only [List.map_cons, List.mem_cons] at h
        rcases h with h | h
        · exact absurd h.symm hh
        · exact h
      simp [dictInsert, hh, ih hr]

theorem dictErase_sublist (m : Collection) (k : String) :
    (dictErase m k).Sublist m := by
  induction m with
  | nil => simp [dictErase]
  | cons hd rest ih =>
    by_cases hh : hd.1 = k
    · simp only [dictErase, if_pos hh]
      exact List.Sublist.cons hd ih
    · simp only [dictErase, if_neg hh]
      exact ih.cons₂ hd

theorem dictLookup_mem {m : Collection} {k : String} {p : Product}
    (h : dictLookup m k = some p) : (k, p) ∈ m := by
  induction m with
  | nil => simp [dictLookup] at h
  | cons hd rest ih =>
    by_cases hh : hd.1 = k
    · rw [dictLookup, if_pos hh] at h
      injection h with h
      have heq : (k, p) = hd := by
        obtain ⟨a, b⟩ := hd
        simp only at hh h
        rw [hh, h]
      rw [heq]
      exact List.mem_cons_self _ _
    · rw [dictLookup, if_neg hh] at h
      exact List.mem_cons_of_mem _ (ih h)

theorem dictLookup_isSome_mem {m : Collection} {k : String}
    (h : (dictLookup m k).isSome = true) : k ∈ m.map Prod.fst := by
  cases hl : dictLookup m k with
  | none => rw [hl] at h; cases h
  | some p => exact List.mem_map_of_mem Prod.fst (dictLookup_mem hl)

theorem stateInv_insert {m : Collection} (h : StateInv ⟨m⟩) {v : Product}
    (hv : ProductValid v) : StateInv ⟨dictInsert m v.sku v⟩ := by
  obtain ⟨hmem, hnodup⟩ := h
  refine ⟨fun kv hkv => ?_, nodup_keys_dictInsert m v.sku v hnodup⟩
  rcases mem_dictInsert m v.sku v kv hkv with h1 | h1
  · rw [h1]; exact ⟨rfl, hv⟩
  · exact hmem kv h1

theorem stateInv_erase {m : Collection} (h : StateInv ⟨m⟩) (k : String) :
    StateInv ⟨dictErase m k⟩ := by
  obtain ⟨hmem, hnodup⟩ := h
  exact ⟨fun kv hkv => hmem kv ((dictErase_sublist m k).subset hkv),
    hnodup.sublist ((dictErase_sublist m k).map Prod.fst)⟩

theorem mkProduct_ok (name category : String) (price : Rat) (quantity : Int)
    (sku description : String) (rl : Int) (supplier ca ua : String)
    (hprice : 0 ≤ price) (hq : 0 ≤ quantity) (hrl : 0 ≤ rl)
    (hname : name ≠ "") (hcat : category ≠ "") :
    mkProduct name category price quantity sku description rl supplier ca ua =
      .ok ⟨name, category, price, quantity, sku, description, rl, supplier,
            ca, ua⟩ := by
  unfold mkProduct
  rw [if_neg (not_lt.2 hprice), if_neg (not_lt.2 hq), if_neg (not_lt.2 hrl),
      if_neg hname, if_neg hcat]

theorem mkProduct_ok_inv {name category : String} {price : Rat}
    {quantity : Int} {sku description : String} {rl : Int}
    {supplier ca ua : String} {p : Product}
    (h : mkProduct name category price quantity sku description rl supplier
        ca ua = .ok p) :
    p = ⟨name, category, price, quantity, sku, description, rl, supplier,
          ca, ua⟩ ∧ ProductValid p := by
  unfold mkProduct at h
  split_ifs at h with h1 h2 h3 h4 h5
  injection h with h
  subst h
  exact ⟨rfl, not_lt.1 h1, not_lt.1 h2, not_lt.1 h3, h4, h5⟩

theorem Pres.refl (p : Product) : Pres p p := ⟨rfl, rfl, rfl, id⟩

theorem Pres.trans {p q r : Product} (h1 : Pres p q) (h2 : Pres q r) :
    Pres p r :=
  ⟨h2.1.trans h1.1, h2.2.1.trans h1.2.1, h2.2.2.1.trans h1.2.2.1,
    fun hv => h2.2.2.2 (h1.2.2.2 hv)⟩

theorem chainOut_bind {p : Product} {x : Except (String × Product) Product}
    {f : Product → Except (String × Product) Product}
    (hx : Pres p (chainOut x)) (hf : ∀ q, Pres q (chainOut (f q))) :
    Pres p (chainOut (x >>= f)) := by
  cases x with
  | error e => exact hx
  | ok q => exact Pres.trans hx (hf q)

theorem updName_pres (p : Product) (a : Option String) :
    Pres p (chainOut (updName p a)) := by
  cases a with
  | none => exact Pres.refl p
  | some v =>
    by_cases hv : v = ""
    · simp only [updName, if_pos hv]; exact Pres.refl p
    · simp only [updName, if_neg hv]
      exact ⟨rfl, rfl, rfl, fun h => ⟨h.1, h.2.1, h.2.2.1, hv, h.2.2.2.2⟩⟩

theorem updCategory_pres (p : Product) (a : Option String) :
    Pres p (chainOut (updCategory p a)) := by
  cases a with
  | none => exact Pres.refl p
  | some v =>
    by_cases hv : v = ""
    · simp only [updCategory, if_pos hv]; exact Pres.refl p
    · simp only [updCategory, if_neg hv]
      exact ⟨rfl, rfl, rfl, fun h => ⟨h.1, h.2.1, h.2.2.1, h.2.2.2.1, hv⟩⟩

theorem updPrice_pres (p : Product) (a : Option Rat) :
    Pres p (chainOut (updPrice p a)) := by
  cases a with
  | none => exact Pres.refl p
  | some v =>
    by_cases hv : v < 0
    · simp only [updPrice, if_pos hv]; exact Pres.refl p
    · simp only [updPrice, if_neg hv]
      exact ⟨rfl, rfl, rfl,
        fun h => ⟨not_lt.1 hv, h.2.1, h.2.2.1, h.2.2.2.1, h.2.2.2.2⟩⟩

theorem updQuantity_pres (p : Product) (a : Option Int) :
    Pres p (chainOut (updQuantity p a)) := by
  cases a with
  | none => exact Pres.refl p
  | some v =>
    by_cases hv : v < 0
    · simp only [updQuantity, if_pos hv]; exact Pres.refl p
    · simp only [updQuantity, if_neg hv]
      exact ⟨rfl, rfl, rfl,
        fun h => ⟨h.1, not_lt.1 hv, h.2.2.1, h.2.2.2.1, h.2.2.2.2⟩⟩

theorem updDescription_pres (p : Product) (a : Option String) :
    Pres p (chainOut (updDescription p a)) := by
  cases a with
  | none => exact Pres.refl p
  | some v => exact ⟨rfl, rfl, rfl, fun h => h⟩

theorem updReorder_pres (p : Product) (a : Option Int) :
    Pres p (chainOut (updReorder p a)) := by
  cases a with
  | none => exact Pres.refl p
  | some v =>
    by_cases hv : v < 0
    · simp only [updReorder, if_pos hv]; exact Pres.refl p
    · simp only [updReorder, if_neg hv]
      exact ⟨rfl, rfl, rfl,
        fun h => ⟨h.1, h.2.1, not_lt.1 hv, h.2.2.2.1, h.2.2.2.2⟩⟩

theorem updSupplier_pres (p : Product) (a : Option String) :
    Pres p (chainOut (updSupplier p a)) := by
  cases a with
  | none => exact Pres.refl p
  | some v => exact ⟨rfl, rfl, rfl, fun h => h⟩

theorem applyUpdates_pres (p : Product) (name category : Option String)
    (price : Option Rat) (quantity : Option Int)
    (description : Option String) (reorder_level : Option Int)
    (supplier : Option String) :
    Pres p (chainOut (applyUpdates p name category price quantity description
      reorder_level supplier)) := by
  unfold applyUpdates
  exact chainOut_bind (updName_pres p name) (fun q1 =>
    chainOut_bind (updCategory_pres q1 category) (fun q2 =>
      chainOut_bind (updPrice_pres q2 price) (fun q3 =>
        chainOut_bind (updQuantity_pres q3 quantity) (fun q4 =>
          chainOut_bind (updDescription_pres q4 description) (fun q5 =>
            chainOut_bind (updReorder_pres q5 reorder_level) (fun q6 =>
              updSupplier_pres q6 supplier))))))

theorem updName_ok_ne {p q : Product} {v : String}
    (h : updName p (some v) = .ok q) : v ≠ "" := by
  intro hv
  subst hv
  simp [updName] at h

theorem updCategory_ok_ne {p q : Product} {v : String}
    (h : updCategory p (some v) = .ok q) : v ≠ "" := by
  intro hv
  subst hv
  simp [updCategory] at h

theorem updPrice_ok_nonneg {p q : Product} {v : Rat}
    (h : updPrice p (some v) = .ok q) : 0 ≤ v := by
  by_contra hv
  rw [not_le] at hv
  simp [updPrice, hv] at h

theorem updQuantity_ok_nonneg {p q : Product} {v : Int}
    (h : updQuantity p (some v) = .ok q) : 0 ≤ v := by
  by_contra hv
  rw [not_le] at hv
  simp [updQuantity, hv] at h

theorem updReorder_ok_nonneg {p q : Product} {v : Int}
    (h : updReorder p (some v) = .ok q) : 0 ≤ v := by
  by_contra hv
  rw [not_le] at hv
  simp [updReorder, hv] at h

theorem applyUpdates_ok_fields {p r : Product} {name category : Option String}
    {price : Option Rat} {quantity : Option Int} {description : Option String}
    {reorder_level : Option Int} {supplier : Option String}
    (h : applyUpdates p name category price quantity description
        reorder_level supplier = .ok r) :
    (∀ v, name = some v → v ≠ "") ∧ (∀ v, category = some v → v ≠ "") ∧
    (∀ v, price = some v → 0 ≤ v) ∧ (∀ v, quantity = some v → 0 ≤ v) ∧
    (∀ v, reorder_level = some v → 0 ≤ v) := by
  unfold applyUpdates at h
  cases h1 : updName p name with
  | error e => rw [h1, exbind_error] at h; exact Except.noConfusion h
  | ok q1 =>
  rw [h1, exbind_ok] at h
  cases h2 : updCategory q1 category with
  | error e => rw [h2, exbind_error] at h; exact Except.noConfusion h
  | ok q2 =>
  rw [h2, exbind_ok] at h
  cases h3 : updPrice q2 price with
  | error e => rw [h3, exbind_error] at h; exact Except.noConfusion h
  | ok q3 =>
  rw [h3, exbind_ok] at h
  cases h4 : updQuantity q3 quantity with
  | error e => rw [h4, exbind_error] at h; exact Except.noConfusion h
  | ok q4 =>
  rw [h4, exbind_ok] at h
  cases h5 : updDescription q4 description with
  | error e => rw [h5, exbind_error] at h; exact Except.noConfusion h
  | ok q5 =>
  rw [h5, exbind_ok] at h
  cases h6 : updReorder q5 reorder_level with
  | error e => rw [h6, exbind_error] at h; exact Except.noConfusion h
  | ok q6 =>
  refine ⟨fun v hv => ?_, fun v hv => ?_, fun v hv => ?_, fun v hv => ?_,
    fun v hv => ?_⟩
  · rw [hv] at h1; exact updName_ok_ne h1
  · rw [hv] at h2; exact updCategory_ok_ne h2
  · rw [hv] at h3; exact updPrice_ok_nonneg h3
  · rw [hv] at h4; exact updQuantity_ok_nonneg h4
  · rw [hv] at h6; exact updReorder_ok_nonneg h6

theorem from_dict_to_dict (now : String) (p : Product) (hv : ProductValid p) :
    from_dict now (to_dict p) = .ok p := by
  obtain ⟨h1, h2, h3, h4, h5⟩ := hv
  simp only [from_dict, to_dict, jGetD, jGetReq, jGet, asStr, asNum, asInt,
    Rat.den_intCast, Rat.num_intCast, String.reduceEq, reduceIte,
    if_pos rfl, bind, Except.bind]
  rw [mkProduct_ok _ _ _ _ _ _ _ _ _ _ h1 h2 h3 h4 h5]

theorem loadItems_acc (now : String) (m : Collection)
    (hm : ∀ kv ∈ m, kv.1 = kv.2.sku ∧ ProductValid kv.2)
    (hnd : (m.map Prod.fst).Nodup) :
    ∀ acc : Collection, (∀ kv ∈ m, kv.1 ∉ acc.map Prod.fst) →
      loadItems now acc (m.map fun kv => to_dict kv.2) = .ok (acc ++ m) := by
  induction m with
  | nil => intro acc _; simp [loadItems]
  | cons kv rest ih =>
    intro acc hdisj
    have hkv := hm kv (List.mem_cons_self _ _)
    simp only [List.map_cons, loadItems,
      from_dict_to_dict now kv.2 hkv.2]
    rw [show kv.2.sku = kv.1 from hkv.1.symm]
    rw [dictInsert_of_not_mem acc kv.1 kv.2
      (hdisj kv (List.mem_cons_self _ _))]
    simp only [List.map_cons, List.nodup_cons] at hnd
    have heta : ((kv.1, kv.2) : String × Product) = kv := rfl
    rw [heta, ih (fun x hx => hm x (List.mem_cons_of_mem _ hx)) hnd.2
      (acc ++ [kv]) ?_, List.append_assoc]
    · rfl
    · intro x hx
      simp only [List.map_append, List.mem_append, List.map_cons,
        List.map_nil, List.mem_singleton, not_or]
      refine ⟨hdisj x (List.mem_cons_of_mem _ hx), fun he => ?_⟩
      exact hnd.1 (he ▸ List.mem_map_of_mem Prod.fst hx)

theorem stateInv_nil : StateInv ⟨[]⟩ :=
  ⟨fun kv h => absurd h (List.not_mem_nil kv), List.nodup_nil⟩

theorem stateInv_insert_at {m : Collection} (h : StateInv ⟨m⟩) {k : String}
    {v : Product} (hk : k = v.sku) (hv : ProductValid v) :
    StateInv ⟨dictInsert m k v⟩ := by
  rw [hk]; exact stateInv_insert h hv

/-! ## Claim theorems -/

/-- C9: every mutating manager operation (add, update, delete, add stock,
remove stock, clear) preserves the collection invariant: each stored
product has non-negative price, quantity and reorder level, non-empty name
and category, is keyed by its own SKU, and keys are unique. -/
theorem c9_operations_preserve_invariant (s : ManagerState) (op : ManagerOp)
    (h : StateInv s) : StateInv (runOp s op).state := by
  cases op with
  | add gen now so name category price quantity description rl supplier sku =>
    simp only [runOp]
    cases hmk : mkProduct name category price quantity gen description rl
        supplier now now with
    | error e => simp [add_product, hmk]; exact h
    | ok product =>
      obtain ⟨hpeq, hpv⟩ := mkProduct_ok_inv hmk
      cases sku with
      | none =>
        simp [add_product, hmk]
        exact stateInv_insert h hpv
      | some k =>
        by_cases hk : k = ""
        · simp [add_product, hmk, hk]
          exact stateInv_insert h hpv
        · cases hpres : (dictLookup s.products k).isSome with
          | true =>
            simp [add_product, hmk, hk, hpres]
            exact h
          | false =>
            simp [add_product, hmk, hk, hpres]
            exact stateInv_insert_at h rfl hpv
  | update now so sku name category price quantity description rl supplier =>
    simp only [runOp]
    cases hl : dictLookup s.products sku with
    | none => simp [update_product, hl]; exact h
    | some p0 =>
      have hmem := h.1 (sku, p0) (dictLookup_mem hl)
      have hpres := applyUpdates_pres p0 name category price quantity
        description rl supplier
      cases happ : applyUpdates p0 name category price quantity description
          rl supplier with
      | error ep =>
        rw [happ] at hpres
        simp [update_product, hl, happ]
        exact stateInv_insert_at h (hmem.1.trans hpres.1.symm)
          (hpres.2.2.2 hmem.2)
      | ok q =>
        rw [happ] at hpres
        simp [update_product, hl, happ]
        exact stateInv_insert_at h (hmem.1.trans hpres.1.symm)
          (hpres.2.2.2 hmem.2)
  | delete so sku =>
    simp only [runOp]
    cases hl : dictLookup s.products sku with
    | none => simp [delete_product, hl]; exact h
    | some p =>
      simp [delete_product, hl]
      exact stateInv_erase h sku
  | addStock now so sku q =>
    simp only [runOp]
    cases hl : dictLookup s.products sku with
    | none => simp [add_stock, hl]; exact h
    | some p =>
      have hmem := h.1 (sku, p) (dictLookup_mem hl)
      by_cases hq : q ≤ 0
      · simp [add_stock, hl, hq]; exact h
      · simp [add_stock, hl, hq]
        exact stateInv_insert_at h hmem.1
          ⟨hmem.2.1, add_nonneg hmem.2.2.1 (not_le.1 hq).le, hmem.2.2.2.1,
            hmem.2.2.2.2.1, hmem.2.2.2.2.2⟩
  | removeStock now so sku q =>
    simp only [runOp]
    cases hl : dictLookup s.products sku with
    | none => simp [remove_stock, hl]; exact h
    | some p =>
      have hmem := h.1 (sku, p) (dictLookup_mem hl)
      by_cases hq : q ≤ 0
      · simp [remove_stock, hl, hq]; exact h
      · by_cases hgt : p.quantity < q
        · simp [remove_stock, hl, hq, hgt]; exact h
        · simp [remove_stock, hl, hq, hgt]
          exact stateInv_insert_at h hmem.1
            ⟨hmem.2.1, sub_nonneg.2 (not_lt.1 hgt), hmem.2.2.2.1,
              hmem.2.2.2.2.1, hmem.2.2.2.2.2⟩
  | clearAll so =>
    simp only [runOp]
    exact stateInv_nil

/-- C9 witness: the invariant holds for the sample state and is preserved
by a concrete stock addition. -/
theorem c9_invariant_witness :
    StateInv sampleState ∧
    StateInv (runOp sampleState (ManagerOp.addStock "t3" true "SKU1" 4)).state :=
  ⟨by decide,
    c9_operations_preserve_invariant sampleState
      (ManagerOp.addStock "t3" true "SKU1" 4) (by decide)⟩

/-- C1: contrary to the claim, every mutating operation ignores the storage
result: with the write failing (`saveOk = false`, recorded as
`saved = some false`), add, update, delete, add stock and remove stock all
still return success.  `_save` discards the boolean
`InventoryStorage.save` returns. -/
theorem c1_save_failure_still_success :
    ((add_product ⟨[]⟩ "GEN00001" "t0" false "Widget" "Hardware" 10 5 "" 10
        "" none).ok = true ∧
     (add_product ⟨[]⟩ "GEN00001" "t0" false "Widget" "Hardware" 10 5 "" 10
        "" none).saved = some false) ∧
    ((update_product sampleState "t1" false "SKU1" (some "Beta") none none
        none none none none).ok = true ∧
     (update_product sampleState "t1" false "SKU1" (some "Beta") none none
        none none none none).saved = some false) ∧
    ((delete_product sampleState false "SKU1").ok = true ∧
     (delete_product sampleState false "SKU1").saved = some false) ∧
    ((add_stock sampleState "t1" false "SKU1" 2).ok = true ∧
     (add_stock sampleState "t1" false "SKU1" 2).saved = some false) ∧
    ((remove_stock sampleState "t1" false "SKU1" 2).ok = true ∧
     (remove_stock sampleState "t1" false "SKU1" 2).saved = some false) :=
  ⟨⟨rfl, rfl⟩, ⟨rfl, rfl⟩, ⟨rfl, rfl⟩, ⟨rfl, rfl⟩, ⟨rfl, rfl⟩⟩

/-- C2 counterexample: updating name together with an invalid price returns
failure, yet the stored product is no longer the one from before the call —
its name was already overwritten before the price check ran. -/
theorem c2_partial_mutation_counterexample :
    (update_product sampleState "t1" true "SKU1" (some "Beta") none
        (some (-1)) none none none none).ok = false ∧
    get_product (update_product sampleState "t1" true "SKU1" (some "Beta")
        none (some (-1)) none none none none).state "SKU1" ≠
      some sampleProduct := by
  constructor
  · rfl
  · decide

/-- C2 (amended): for an existing product, an update supplying an invalid
field returns failure (first conjunct), and any failing update neither
persists nor refreshes `updated_at` nor changes the SKU of the stored
product (second conjunct) — but fields validated before the violating one
may already have been applied, as the counterexample shows. -/
theorem c2_update_failure_no_refresh_no_persist (s : ManagerState)
    (now : String) (so : Bool) (sku : String) (name category : Option String)
    (price : Option Rat) (quantity : Option Int)
    (description : Option String) (reorder_level : Option Int)
    (supplier : Option String) (p : Product)
    (hfind : dictLookup s.products sku = some p) :
    ((name = some "" ∨ category = some "" ∨
        (∃ v, price = some v ∧ v < 0) ∨ (∃ v, quantity = some v ∧ v < 0) ∨
        (∃ v, reorder_level = some v ∧ v < 0)) →
      (update_product s now so sku name category price quantity description
          reorder_level supplier).ok = false) ∧
    ((update_product s now so sku name category price quantity description
        reorder_level supplier).ok = false →
      (update_product s now so sku name category price quantity description
          reorder_level supplier).saved = none ∧
      ∃ q, get_product (update_product s now so sku name category price
          quantity description reorder_level supplier).state sku = some q ∧
        q.updated_at = p.updated_at ∧ q.sku = p.sku) := by
  have hpres := applyUpdates_pres p name category price quantity description
    reorder_level supplier
  cases happ : applyUpdates p name category price quantity description
      reorder_level supplier with
  | error ep =>
    rw [happ] at hpres
    constructor
    · intro _
      simp [update_product, hfind, happ]
    · intro _
      refine ⟨by simp [update_product, hfind, happ], ep.2, ?_, hpres.2.1,
        hpres.1⟩
      simp [update_product, hfind, happ, get_product,
        dictLookup_dictInsert_self]
  | ok q =>
    rw [happ] at hpres
    constructor
    · intro hbad
      exfalso
      obtain ⟨f1, f2, f3, f4, f5⟩ := applyUpdates_ok_fields happ
      rcases hbad with hb | hb | ⟨v, hv, hlt⟩ | ⟨v, hv, hlt⟩ | ⟨v, hv, hlt⟩
      · exact f1 "" hb rfl
      · exact f2 "" hb rfl
      · exact absurd (f3 v hv) (not_le.2 hlt)
      · exact absurd (f4 v hv) (not_le.2 hlt)
      · exact absurd (f5 v hv) (not_le.2 hlt)
    · intro hok
      exfalso
      simp [update_product, hfind, happ] at hok

/-- C2 witness: the amended theorem applied to the sample state, an
invalid price update. -/
theorem c2_update_failure_witness :
    dictLookup sampleState.products "SKU1" = some sampleProduct ∧
    ((((some "" : Option String) = some "" ∨ (none : Option String) = some "" ∨
        (∃ v, (some (-1) : Option Rat) = some v ∧ v < 0) ∨
        (∃ v, (none : Option Int) = some v ∧ v < 0) ∨
        (∃ v, (none : Option Int) = some v ∧ v < 0)) →
      (update_product sampleState "t1" true "SKU1" (some "") none (some (-1))
          none none none none).ok = false) ∧
    ((update_product sampleState "t1" true "SKU1" (some "") none (some (-1))
        none none none none).ok = false →
      (update_product sampleState "t1" true "SKU1" (some "") none (some (-1))
          none none none none).saved = none ∧
      ∃ q, get_product (update_product sampleState "t1" true "SKU1" (some "")
          none (some (-1)) none none none none).state "SKU1" = some q ∧
        q.updated_at = sampleProduct.updated_at ∧
        q.sku = sampleProduct.sku)) :=
  ⟨by decide,
    c2_update_failure_no_refresh_no_persist sampleState "t1" true "SKU1"
      (some "") none (some (-1)) none none none none sampleProduct
      (by decide)⟩

/-- C3 counterexample: a well-formed JSON document whose single product
entry lacks the required "name" key makes `load` raise (`KeyError`) rather
than return the empty collection. -/
theorem c3_malformed_entry_counterexample :
    loadFile "t" (.parsed (.obj [("products",
        .arr [.obj [("sku", .str "A")]])])) = .error "KeyError: name" := rfl

/-- C3 (amended): `load` returns the empty collection, without raising, for
a missing, empty, or non-JSON file; but well-formed JSON whose product
entries are malformed (here: a required key missing) raises out of `load`
instead of degrading to the empty collection. -/
theorem c3_load_fail_safe_scope (now : String) :
    loadFile now .missing = .ok [] ∧ loadFile now .empty = .ok [] ∧
    loadFile now .unparsable = .ok [] ∧
    loadFile now (.parsed (.obj [("products",
        .arr [.obj [("sku", .str "B")]])])) = .error "KeyError: name" :=
  ⟨rfl, rfl, rfl, rfl⟩

/-- C4: `remove_stock` fails with a not-found result on an absent SKU,
fails with the validation message on `q ≤ 0`, fails leaving the state
untouched when `q` exceeds the current quantity, and otherwise succeeds
with the stored quantity decreased by exactly `q`. -/
theorem c4_remove_stock_cases (s : ManagerState) (now : String) (so : Bool)
    (sku : String) (q : Int) :
    (dictLookup s.products sku = none →
      remove_stock s now so sku q =
        ⟨false, "Product with SKU " ++ sku ++ " not found", s, none⟩) ∧
    (∀ p, dictLookup s.products sku = some p →
      ((q ≤ 0 →
        remove_stock s now so sku q =
          ⟨false, "Quantity to remove must be positive", s, none⟩) ∧
       (p.quantity < q →
        (remove_stock s now so sku q).ok = false ∧
        (remove_stock s now so sku q).state = s) ∧
       (0 < q → q ≤ p.quantity →
        (remove_stock s now so sku q).ok = true ∧
        get_product (remove_stock s now so sku q).state sku =
          some { p with
                  quantity := p.quantity - q,
                  updated_at := now }))) := by
  constructor
  · intro hl
    simp [remove_stock, hl]
  · intro p hl
    refine ⟨fun hq => ?_, fun hgt => ?_, fun hq hle => ?_⟩
    · simp [remove_stock, hl, hq]
    · by_cases hq : q ≤ 0
      · simp [remove_stock, hl, hq]
      · simp [remove_stock, hl, hq, hgt]
    · simp [remove_stock, hl, not_le.2 hq, not_lt.2 hle, get_product,
        dictLookup_dictInsert_self]

/-- C4 witness: removing 3 units from the sample product with quantity 7
succeeds and leaves quantity 4. -/
theorem c4_remove_stock_witness :
    dictLookup sampleState.products "SKU1" = some sampleProduct ∧
    (0 : Int) < 3 ∧ (3 : Int) ≤ sampleProduct.quantity ∧
    ((remove_stock sampleState "t1" true "SKU1" 3).ok = true ∧
     get_product (remove_stock sampleState "t1" true "SKU1" 3).state "SKU1" =
       some { sampleProduct with
               quantity := sampleProduct.quantity - 3,
               updated_at := "t1" }) :=
  ⟨by decide, by decide, by decide,
    ((c4_remove_stock_cases sampleState "t1" true "SKU1" 3).2 sampleProduct
        (by decide)).2.2 (by decide) (by decide)⟩

/-- C5: `add_product` with an explicit, truthy SKU that is already a key
fails and leaves the collection untouched; when the remaining fields are
valid the failure is specifically the duplicate-SKU result. -/
theorem c5_add_duplicate_sku (s : ManagerState) (gen now : String)
    (so : Bool) (name category : String) (price : Rat) (quantity : Int)
    (description : String) (rl : Int) (supplier : String) (k : String)
    (hk : k ≠ "") (hpresent : (dictLookup s.products k).isSome = true) :
    ((add_product s gen now so name category price quantity description rl
        supplier (some k)).ok = false ∧
     (add_product s gen now so name category price quantity description rl
        supplier (some k)).state = s) ∧
    (0 ≤ price → 0 ≤ quantity → 0 ≤ rl → name ≠ "" → category ≠ "" →
      add_product s gen now so name category price quantity description rl
          supplier (some k) =
        ⟨false, "Product with SKU " ++ k ++ " already exists", s, none⟩) := by
  constructor
  · cases hmk : mkProduct name category price quantity gen description rl
        supplier now now with
    | error e => simp [add_product, hmk]
    | ok product => simp [add_product, hmk, hk, hpresent]
  · intro h1 h2 h3 h4 h5
    simp [add_product,
      mkProduct_ok name category price quantity gen description rl supplier
        now now h1 h2 h3 h4 h5, hk, hpresent]

/-- C5 witness: adding with the already-present SKU1 fails with the
duplicate message and leaves the sample state unchanged. -/
theorem c5_add_duplicate_sku_witness :
    ("SKU1" : String) ≠ "" ∧
    (dictLookup sampleState.products "SKU1").isSome = true ∧
    (((add_product sampleState "GEN1" "t1" true "Widget" "Hardware" 10 5 ""
        10 "" (some "SKU1")).ok = false ∧
      (add_product sampleState "GEN1" "t1" true "Widget" "Hardware" 10 5 ""
        10 "" (some "SKU1")).state = sampleState) ∧
     ((0 : Rat) ≤ 10 → (0 : Int) ≤ 5 → (0 : Int) ≤ 10 →
      ("Widget" : String) ≠ "" → ("Hardware" : String) ≠ "" →
      add_product sampleState "GEN1" "t1" true "Widget" "Hardware" 10 5 ""
          10 "" (some "SKU1") =
        ⟨false, "Product with SKU " ++ "SKU1" ++ " already exists",
          sampleState, none⟩)) :=
  ⟨by decide, by decide,
    c5_add_duplicate_sku sampleState "GEN1" "t1" true "Widget" "Hardware"
      10 5 "" 10 "" "SKU1" (by decide) (by decide)⟩

/-- C6: saving a collection whose products are valid and keyed by their own
SKUs (with unique keys) and loading it back from the written file yields an
equal collection, field for field; the empty collection round-trips as the
degenerate case. -/
theorem c6_save_load_round_trip (now : String) (m : Collection)
    (h : StateInv ⟨m⟩) : loadFile now (saveFile m) = .ok m := by
  have hli := loadItems_acc now m h.1 h.2 [] (by simp)
  simp only [saveFile, loadFile, jGetD, jGet, String.reduceEq, reduceIte]
  simpa using hli

/-- C6 witness: the sample one-product collection and the empty collection
both round-trip through save and load. -/
theorem c6_round_trip_witness :
    StateInv ⟨sampleState.products⟩ ∧ StateInv ⟨([] : Collection)⟩ ∧
    loadFile "t9" (saveFile sampleState.products) =
      .ok sampleState.products ∧
    loadFile "t9" (saveFile ([] : Collection)) = .ok ([] : Collection) :=
  ⟨by decide, by decide,
    c6_save_load_round_trip "t9" sampleState.products (by decide),
    c6_save_load_round_trip "t9" ([] : Collection) (by decide)⟩

/-- C7: membership in `get_low_stock_products` is exactly membership in the
stored collection together with `quantity ≤ reorder_level`; equality of
quantity and reorder level therefore lands in the low-stock set. -/
theorem c7_low_stock_iff (s : ManagerState) (p : Product) :
    p ∈ get_low_stock_products s ↔
      p ∈ s.products.map Prod.snd ∧ p.quantity ≤ p.reorder_level := by
  simp [get_low_stock_products, Product.is_low_stock, List.mem_filter,
    decide_eq_true_eq]

/-- C8: with valid fields and a fresh effective SKU (the explicit one when
truthy, the generated one otherwise), `add_product` succeeds and
`get_product` at that SKU returns a record whose fields equal the input,
with both timestamps set to the creation time. -/
theorem c8_add_then_get (s : ManagerState) (gen now : String) (so : Bool)
    (name category : String) (price : Rat) (quantity : Int)
    (description : String) (rl : Int) (supplier : String)
    (sku : Option String)
    (hprice : 0 ≤ price) (hq : 0 ≤ quantity) (hrl : 0 ≤ rl)
    (hname : name ≠ "") (hcat : category ≠ "")
    (hfresh : dictLookup s.products (effectiveSku gen sku) = none) :
    (add_product s gen now so name category price quantity description rl
        supplier sku).ok = true ∧
    get_product (add_product s gen now so name category price quantity
        description rl supplier sku).state (effectiveSku gen sku) =
      some ⟨name, category, price, quantity, effectiveSku gen sku,
            description, rl, supplier, now, now⟩ := by
  have hmk := mkProduct_ok name category price quantity gen description rl
    supplier now now hprice hq hrl hname hcat
  cases sku with
  | none =>
    simp [add_product, hmk, effectiveSku, get_product,
      dictLookup_dictInsert_self]
  | some k =>
    by_cases hk : k = ""
    · simp [add_product, hmk, hk, effectiveSku, get_product,
        dictLookup_dictInsert_self]
    · have hfr : (dictLookup s.products k).isSome = false := by
        have he : effectiveSku gen (some k) = k := by
          simp [effectiveSku, hk]
        rw [he] at hfresh
        rw [hfresh]
        rfl
      simp [add_product, hmk, hk, hfr, effectiveSku, get_product,
        dictLookup_dictInsert_self]

/-- C8 witness: a concrete valid add on the sample state followed by a get
at the assigned (generated) SKU. -/
theorem c8_add_then_get_witness :
    (0 : Rat) ≤ 10 ∧ (0 : Int) ≤ 5 ∧ (0 : Int) ≤ 10 ∧
    ("Widget" : String) ≠ "" ∧ ("Hardware" : String) ≠ "" ∧
    dictLookup sampleState.products (effectiveSku "GEN2" none) = none ∧
    ((add_product sampleState "GEN2" "t2" true "Widget" "Hardware" 10 5 ""
        10 "" none).ok = true ∧
     get_product (add_product sampleState "GEN2" "t2" true "Widget"
        "Hardware" 10 5 "" 10 "" none).state (effectiveSku "GEN2" none) =
      some ⟨"Widget", "Hardware", 10, 5, effectiveSku "GEN2" none, "", 10,
            "", "t2", "t2"⟩) :=
  ⟨by decide, by decide, by decide, by decide, by decide, by decide,
    c8_add_then_get sampleState "GEN2" "t2" true "Widget" "Hardware" 10 5
      "" 10 "" none (by decide) (by decide) (by decide) (by decide)
      (by decide) (by decide)⟩

/-- C10: with valid fields, `add_product` fails if and only if the supplied
SKU argument is a non-empty string already present as a key; when the
argument is `None` or `""` the duplicate check is skipped and the record is
inserted under the generated SKU unconditionally — if that generated SKU
already exists, the existing record is replaced in place (key set
unchanged, lookup now yields the new record). -/
theorem c10_truthy_sku_duplicate_check (s : ManagerState) (gen now : String)
    (so : Bool) (name category : String) (price : Rat) (quantity : Int)
    (description : String) (rl : Int) (supplier : String)
    (sku : Option String)
    (hprice : 0 ≤ price) (hq : 0 ≤ quantity) (hrl : 0 ≤ rl)
    (hname : name ≠ "") (hcat : category ≠ "") :
    ((add_product s gen now so name category price quantity description rl
        supplier sku).ok = false ↔
      ∃ k, sku = some k ∧ k ≠ "" ∧
        (dictLookup s.products k).isSome = true) ∧
    (sku = none ∨ sku = some "" →
      (add_product s gen now so name category price quantity description rl
          supplier sku).ok = true ∧
      (add_product s gen now so name category price quantity description rl
          supplier sku).state.products =
        dictInsert s.products gen
          ⟨name, category, price, quantity, gen, description, rl, supplier,
            now, now⟩) ∧
    (sku = none ∨ sku = some "" →
      (dictLookup s.products gen).isSome = true →
      (add_product s gen now so name category price quantity description rl
          supplier sku).state.products.map Prod.fst =
        s.products.map Prod.fst ∧
      get_product (add_product s gen now so name category price quantity
          description rl supplier sku).state gen =
        some ⟨name, category, price, quantity, gen, description, rl,
              supplier, now, now⟩) := by
  have hmk := mkProduct_ok name category price quantity gen description rl
    supplier now now hprice hq hrl hname hcat
  refine ⟨?_, ?_, ?_⟩
  · cases sku with
    | none => simp [add_product, hmk]
    | some k =>
      by_cases hk : k = ""
      · subst hk
        simp [add_product, hmk]
      · cases hpres : (dictLookup s.products k).isSome with
        | true => simp [add_product, hmk, hk, hpres]
        | false => simp [add_product, hmk, hk, hpres]
  · intro hsku
    rcases hsku with h | h <;> subst h <;>
      simp [add_product, hmk]
  · intro hsku hsome
    have hkeys := keys_dictInsert_of_mem s.products gen
      ⟨name, category, price, quantity, gen, description, rl, supplier,
        now, now⟩ (dictLookup_isSome_mem hsome)
    rcases hsku with h | h <;> subst h <;>
      simp [add_product, hmk, get_product, dictLookup_dictInsert_self,
        hkeys]

/-- C10 witness: with the generated SKU colliding with the present SKU1 and
the explicit argument empty, the add succeeds and replaces the sample
record in place. -/
theorem c10_truthy_sku_witness :
    (0 : Rat) ≤ 20 ∧ (0 : Int) ≤ 3 ∧ (0 : Int) ≤ 10 ∧
    ("Gadget" : String) ≠ "" ∧ ("Hardware" : String) ≠ "" ∧
    (((add_product sampleState "SKU1" "t4" true "Gadget" "Hardware" 20 3 ""
        10 "" (some "")).ok = false ↔
      ∃ k, (some "" : Option String) = some k ∧ k ≠ "" ∧
        (dictLookup sampleState.products k).isSome = true) ∧
     ((some "" : Option String) = none ∨ (some "" : Option String) = some "" →
      (add_product sampleState "SKU1" "t4" true "Gadget" "Hardware" 20 3 ""
          10 "" (some "")).ok = true ∧
      (add_product sampleState "SKU1" "t4" true "Gadget" "Hardware" 20 3 ""
          10 "" (some "")).state.products =
        dictInsert sampleState.products "SKU1"
          ⟨"Gadget", "Hardware", 20, 3, "SKU1", "", 10, "", "t4", "t4"⟩) ∧
     ((some "" : Option String) = none ∨ (some "" : Option String) = some "" →
      (dictLookup sampleState.products "SKU1").isSome = true →
      (add_product sampleState "SKU1" "t4" true "Gadget" "Hardware" 20 3 ""
          10 "" (some "")).state.products.map Prod.fst =
        sampleState.products.map Prod.fst ∧
      get_product (add_product sampleState "SKU1" "t4" true "Gadget"
          "Hardware" 20 3 "" 10 "" (some "")).state "SKU1" =
        some ⟨"Gadget", "Hardware", 20, 3, "SKU1", "", 10, "", "t4",
              "t4"⟩)) :=
  ⟨by decide, by decide, by decide, by decide, by decide,
    c10_truthy_sku_duplicate_check sampleState "SKU1" "t4" true "Gadget"
      "Hardware" 20 3 "" 10 "" (some "") (by decide) (by decide) (by decide)
      (by decide) (by decide)⟩

end Inventory
